import Mathlib

/-!
Verification development for the cpp-vulkan renderer.

The definitions below are a shallow embedding of the per-frame
synchronization and submission protocol in src/src/main.cpp, the
query helpers in src/src/api/vkutils.cpp, and the shader/pipeline
constructors in src/src/api/components. Device calls are modelled as
abstract operations recorded in a trace; results of fallible device
calls are inputs; machine vectors become lists or index functions.
-/

set_option maxHeartbeats 1000000

namespace CppVulkan

/-- Constant MAX_FRAMES_IN_FLIGHT from main.cpp line 25. -/
def MAX_FRAMES_IN_FLIGHT : Nat := 2

/-- VkExtent2D: width and height of the swapchain surface. -/
structure VkExtent2D where
  width : Nat
  height : Nat
deriving DecidableEq

/-- VkViewport as produced by VulkanContext::GetViewport; the float
fields are modelled as rationals, exact at the values the code uses. -/
structure VkViewport where
  x : ℚ
  y : ℚ
  width : ℚ
  height : ℚ
  minDepth : ℚ
  maxDepth : ℚ
deriving DecidableEq

/-- VkRect2D with its offset pair and extent. -/
structure VkRect2D where
  offsetX : Int
  offsetY : Int
  extent : VkExtent2D
deriving DecidableEq

/-- VulkanContext::GetViewport (vkcontext.cpp lines 485-494): origin 0,
size equal to the swapchain extent, depth range 0 to 1. -/
def GetViewport (extent : VkExtent2D) : VkViewport :=
  { x := 0, y := 0
    width := extent.width, height := extent.height
    minDepth := 0, maxDepth := 1 }

/-- VulkanContext::GetScissor (vkcontext.cpp lines 496-501): offset
zero and the swapchain extent. -/
def GetScissor (extent : VkExtent2D) : VkRect2D :=
  { offsetX := 0, offsetY := 0, extent := extent }

/-- Result codes of the device calls the frame loop makes; only the
constructors the claims need are represented. -/
inductive VkResult where
  | success
  | suboptimalKHR
  | errorOutOfDateKHR
  | errorDeviceLost
deriving DecidableEq

/-- The exception object thrown by the ASSERT and VK_ASSERT macros in
utils/debug.hpp: std::runtime_error with a fixed message. The
stderr diagnostic is not part of the propagated error object. -/
structure RuntimeError where
  what : String
deriving DecidableEq

/-- VK_ASSERT macro (debug.hpp lines 20-23): any result other than
VK_SUCCESS throws runtime_error with the fixed message. -/
def VK_ASSERT (r : VkResult) : Option RuntimeError :=
  if r = VkResult.success then none else some ⟨"Check error log"⟩

/-- Semaphores of the app, identified by which vector they live in and
their slot index. -/
inductive VkSemaphore where
  | imageAvailable (slot : Nat)
  | renderFinished (slot : Nat)
deriving DecidableEq

/-- Pipeline stage flags; only the one the submit uses. -/
inductive VkPipelineStageFlag where
  | colorAttachmentOutput
deriving DecidableEq

/-- Vector imageAvailableSemaphores of main.cpp, indexed by slot. -/
def imageAvailableSemaphores (i : Nat) : VkSemaphore :=
  VkSemaphore.imageAvailable i

/-- Vector renderFinishedSemaphores of main.cpp, indexed by slot. -/
def renderFinishedSemaphores (i : Nat) : VkSemaphore :=
  VkSemaphore.renderFinished i

/-- Vector inFlightFences of main.cpp; a fence is identified by its
slot index. -/
def inFlightFences (i : Nat) : Nat := i

/-- Vector commandBuffers of main.cpp; a command buffer is identified
by its slot index. -/
def commandBuffers (i : Nat) : Nat := i

/-- VkSubmitInfo with the fields main.cpp fills in (lines 103-127). -/
structure VkSubmitInfo where
  waitSemaphoreCount : Nat
  pWaitSemaphores : List VkSemaphore
  pWaitDstStageMask : List VkPipelineStageFlag
  commandBufferCount : Nat
  pCommandBuffers : List Nat
  signalSemaphoreCount : Nat
  pSignalSemaphores : List VkSemaphore
deriving DecidableEq

/-- VkPresentInfoKHR with the fields main.cpp fills in (lines 136-150). -/
structure VkPresentInfoKHR where
  waitSemaphoreCount : Nat
  pWaitSemaphores : List VkSemaphore
  pImageIndices : List Nat
  swapchainCount : Nat
deriving DecidableEq

/-- Submit info built by VulkanApp::Render lines 103-127: wait on the
slot's image-available semaphore at the color-attachment-output stage,
submit the slot's command buffer, signal the slot's render-finished
semaphore. -/
def mkSubmitInfo (currentFrame : Nat) : VkSubmitInfo :=
  let waitSemaphores := [imageAvailableSemaphores currentFrame]
  let waitStages := [VkPipelineStageFlag.colorAttachmentOutput]
  let signalSemaphores := [renderFinishedSemaphores currentFrame]
  { waitSemaphoreCount := 1
    pWaitSemaphores := waitSemaphores
    pWaitDstStageMask := waitStages
    commandBufferCount := 1
    pCommandBuffers := [commandBuffers currentFrame]
    signalSemaphoreCount := 1
    pSignalSemaphores := signalSemaphores }

/-- Present info built by VulkanApp::Render lines 136-150: wait on the
signal semaphores of the submit, present the acquired image index on
the single swapchain. -/
def mkPresentInfo (currentFrame : Nat) (imageIndex : Nat) : VkPresentInfoKHR :=
  { waitSemaphoreCount := 1
    pWaitSemaphores := [renderFinishedSemaphores currentFrame]
    pImageIndices := [imageIndex]
    swapchainCount := 1 }

/-- VkClearValue restricted to a color clear; float channels modelled
as rationals. -/
structure VkClearValue where
  r : ℚ
  g : ℚ
  b : ℚ
  a : ℚ
deriving DecidableEq

/-- Clear color of RecordCommand, main.cpp line 218. -/
def clearColor : VkClearValue := ⟨0.2, 0.2, 0.2, 1.0⟩

/-- Device and command-buffer operations the app performs, recorded as
trace events. Framebuffers are identified by their image index, as in
context.frameBuffers of vkcontext. -/
inductive RenderOp where
  | vkWaitForFences (fence : Nat)
  | vkResetFences (fence : Nat)
  | vkAcquireNextImageKHR (signalSemaphore : VkSemaphore)
  | vkResetCommandBuffer (commandBuffer : Nat)
  | vkBeginCommandBuffer (commandBuffer : Nat)
  | vkCmdBeginRenderPass (commandBuffer : Nat) (framebuffer : Nat)
      (clear : VkClearValue) (renderArea : VkRect2D)
  | vkCmdBindPipeline (commandBuffer : Nat)
  | vkCmdSetViewport (commandBuffer : Nat) (viewport : VkViewport)
  | vkCmdSetScissor (commandBuffer : Nat) (scissor : VkRect2D)
  | vkCmdDraw (commandBuffer vertexCount instanceCount firstVertex firstInstance : Nat)
  | vkCmdEndRenderPass (commandBuffer : Nat)
  | vkEndCommandBuffer (commandBuffer : Nat)
  | vkQueueSubmit (submitCount : Nat) (pSubmits : List VkSubmitInfo) (fence : Nat)
  | vkQueuePresentKHR (presentInfo : VkPresentInfoKHR)
deriving DecidableEq

/-- VulkanApp::RecordCommand (main.cpp lines 199-254), as the sequence
of commands it records into the given command buffer for the given
image index: begin recording, begin the render pass on the framebuffer
of that image with the fixed clear color and the swapchain extent as
render area, bind the graphics pipeline, set viewport and scissor from
the current extent, draw 3 vertices in 1 instance, end the render
pass, end recording. The begin and end results are asserted in the
source and taken as successful here. -/
def RecordCommand (extent : VkExtent2D) (command : Nat) (imageIndex : Nat) :
    List RenderOp :=
  [ RenderOp.vkBeginCommandBuffer command,
    RenderOp.vkCmdBeginRenderPass command imageIndex clearColor ⟨0, 0, extent⟩,
    RenderOp.vkCmdBindPipeline command,
    RenderOp.vkCmdSetViewport command (GetViewport extent),
    RenderOp.vkCmdSetScissor command (GetScissor extent),
    RenderOp.vkCmdDraw command 3 1 0 0,
    RenderOp.vkCmdEndRenderPass command,
    RenderOp.vkEndCommandBuffer command ]

/-- Predicate over a single iteration trace: operation a occurs at a
strictly earlier position than operation b. -/
def Before (l : List RenderOp) (a b : RenderOp) : Prop :=
  ∃ i j : Nat, i < j ∧ l[i]? = some a ∧ l[j]? = some b

/-- Recognizer for vkQueueSubmit trace events. -/
def isQueueSubmitOp : RenderOp → Bool
  | .vkQueueSubmit _ _ _ => true
  | _ => false

/-- Recognizer for vkQueuePresentKHR trace events. -/
def isQueuePresentOp : RenderOp → Bool
  | .vkQueuePresentKHR _ => true
  | _ => false

/-- Recognizer for host-blocking device waits inside a trace. -/
def isDeviceWaitOp : RenderOp → Bool
  | .vkWaitForFences _ => true
  | _ => false

set_option linter.unusedVariables false in
/-- VulkanApp::Render (main.cpp lines 79-163), as the trace of device
operations the host performs in one iteration together with the
propagated error, if any. The three VkResult arguments are the values
the device returns from acquire, submit and present. The acquire
result is discarded by the source (no check on lines 94-97); the
submit and present results pass through VK_ASSERT, which throws and
ends the iteration on any non-success value. -/
def Render (currentFrame : Nat) (extent : VkExtent2D) (imageIndex : Nat)
    (acquireResult submitResult presentResult : VkResult) :
    List RenderOp × Option RuntimeError :=
  let pre : List RenderOp :=
    [RenderOp.vkWaitForFences (inFlightFences currentFrame),
     RenderOp.vkResetFences (inFlightFences currentFrame),
     RenderOp.vkAcquireNextImageKHR (imageAvailableSemaphores currentFrame),
     RenderOp.vkResetCommandBuffer (commandBuffers currentFrame)]
    ++ RecordCommand extent (commandBuffers currentFrame) imageIndex
  let afterSubmit :=
    pre ++ [RenderOp.vkQueueSubmit 1 [mkSubmitInfo currentFrame] (inFlightFences currentFrame)]
  match VK_ASSERT submitResult with
  | some e => (afterSubmit, some e)
  | none =>
    let afterPresent :=
      afterSubmit ++ [RenderOp.vkQueuePresentKHR (mkPresentInfo currentFrame imageIndex)]
    (afterPresent, VK_ASSERT presentResult)

/-- Frame index update at the end of each loop iteration of
VulkanApp::Run (main.cpp line 74). -/
def advanceFrame (currentFrame : Nat) : Nat :=
  (currentFrame + 1) % MAX_FRAMES_IN_FLIGHT

/-- Value of the currentFrame member after m completed loop
iterations; the constructor initializes it to 0 (main.cpp line 45). -/
def currentFrameAfter : Nat → Nat
  | 0 => 0
  | m + 1 => advanceFrame (currentFrameAfter m)

/-- Fence create info of CreateSyncObjects: the
VK_FENCE_CREATE_SIGNALED_BIT flag is set (main.cpp line 265), so every
fence is created already signaled. -/
structure VkFenceCreateInfo where
  signaled : Bool
deriving DecidableEq

/-- Fence create info instance built at main.cpp lines 260-265. -/
def fenceInfo : VkFenceCreateInfo := ⟨true⟩

/-- VulkanApp::CreateSyncObjects (main.cpp lines 256-277): the two
semaphore vectors and the fence vector are resized to
MAX_FRAMES_IN_FLIGHT and one object of each kind is created per slot;
the Bool list records the initial signaled state of each fence. -/
def CreateSyncObjects :
    List VkSemaphore × List VkSemaphore × List Bool :=
  ( (List.range MAX_FRAMES_IN_FLIGHT).map imageAvailableSemaphores,
    (List.range MAX_FRAMES_IN_FLIGHT).map renderFinishedSemaphores,
    List.replicate MAX_FRAMES_IN_FLIGHT fenceInfo.signaled )

/-- VulkanApp::AllocateCommandBuffers (main.cpp lines 181-197): the
command buffer vector is resized to 2 and that many primary command
buffers are allocated. -/
def AllocateCommandBuffers : List Nat :=
  (List.range 2).map commandBuffers

/-- Host program position inside one Render iteration, in the
statement order of main.cpp lines 84-162. -/
inductive HostPc where
  | waitFences
  | resetFences
  | acquireImage
  | resetCommandBuffer
  | record
  | submit
  | present
deriving DecidableEq

/-- Combined host and device state of the frame loop. The field m
counts completed loop iterations, so the slot in use is
m % MAX_FRAMES_IN_FLIGHT; fence0 and fence1 are the signaled states of
inFlightFences[0] and inFlightFences[1]; out0 and out1 count the
submissions fenced on each slot that the device has not yet retired. -/
structure SchedState where
  m : Nat
  pc : HostPc
  fence0 : Bool
  fence1 : Bool
  out0 : Nat
  out1 : Nat
deriving DecidableEq

/-- Slot in use: currentFrame equals the iteration count modulo
MAX_FRAMES_IN_FLIGHT (main.cpp lines 45 and 74). -/
def SchedState.slot (st : SchedState) : Nat :=
  st.m % MAX_FRAMES_IN_FLIGHT

/-- Signaled state of the fence of slot k. -/
def SchedState.fence (st : SchedState) (k : Nat) : Bool :=
  if k = 0 then st.fence0 else st.fence1

/-- Unretired submissions fenced on slot k. -/
def SchedState.outstanding (st : SchedState) (k : Nat) : Nat :=
  if k = 0 then st.out0 else st.out1

/-- State at program start: currentFrame is 0, both fences are created
signaled by CreateSyncObjects, and no submission is outstanding. -/
def initState : SchedState :=
  { m := 0, pc := HostPc.waitFences
    fence0 := true, fence1 := true, out0 := 0, out1 := 0 }

/-- Interleaved small-step semantics of the render loop of
VulkanApp::Run and VulkanApp::Render together with the device. Host
steps follow the statement order of Render; the vkWaitForFences call
at line 84 returns only once the current slot's fence is signaled; the
vkResetFences call at line 86 unsignals it; the vkQueueSubmit call at
line 131 registers one submission fenced on the slot; line 74 advances
the frame index. The device step retire completes one outstanding
submission of a slot at any time, signaling that slot's fence. -/
inductive SchedStep : SchedState → SchedState → Prop where
  | waitFences (st : SchedState) :
      st.pc = HostPc.waitFences → st.fence st.slot = true →
      SchedStep st { st with pc := HostPc.resetFences }
  | resetFences (st : SchedState) :
      st.pc = HostPc.resetFences → st.slot = 0 →
      SchedStep st { st with pc := HostPc.acquireImage, fence0 := false }
  | resetFences1 (st : SchedState) :
      st.pc = HostPc.resetFences → st.slot = 1 →
      SchedStep st { st with pc := HostPc.acquireImage, fence1 := false }
  | acquireImage (st : SchedState) :
      st.pc = HostPc.acquireImage →
      SchedStep st { st with pc := HostPc.resetCommandBuffer }
  | resetCommandBuffer (st : SchedState) :
      st.pc = HostPc.resetCommandBuffer →
      SchedStep st { st with pc := HostPc.record }
  | record (st : SchedState) :
      st.pc = HostPc.record →
      SchedStep st { st with pc := HostPc.submit }
  | submit0 (st : SchedState) :
      st.pc = HostPc.submit → st.slot = 0 →
      SchedStep st { st with pc := HostPc.present, out0 := st.out0 + 1 }
  | submit1 (st : SchedState) :
      st.pc = HostPc.submit → st.slot = 1 →
      SchedStep st { st with pc := HostPc.present, out1 := st.out1 + 1 }
  | present (st : SchedState) :
      st.pc = HostPc.present →
      SchedStep st { st with pc := HostPc.waitFences, m := st.m + 1 }
  | retire0 (st : SchedState) :
      st.out0 > 0 →
      SchedStep st { st with out0 := st.out0 - 1, fence0 := true }
  | retire1 (st : SchedState) :
      st.out1 > 0 →
      SchedStep st { st with out1 := st.out1 - 1, fence1 := true }

/-- States reachable from program start under the interleaved
semantics. -/
inductive SchedReachable : SchedState → Prop where
  | init : SchedReachable initState
  | step {s t : SchedState} : SchedReachable s → SchedStep s t → SchedReachable t

/-- Inductive invariant of the frame loop: each slot has at most one
unretired submission; a signaled fence means its slot has retired; in
the portion of an iteration between the fence reset and the submit,
the current slot has nothing outstanding and its fence is unsignaled;
at the fence-reset point the fence is still signaled with nothing
outstanding; and a slot that has never been submitted to still has its
fence in the created-signaled state. -/
def SchedInv (st : SchedState) : Prop :=
  st.out0 ≤ 1 ∧ st.out1 ≤ 1
  ∧ (st.fence0 = true → st.out0 = 0)
  ∧ (st.fence1 = true → st.out1 = 0)
  ∧ ((st.pc = HostPc.acquireImage ∨ st.pc = HostPc.resetCommandBuffer
        ∨ st.pc = HostPc.record ∨ st.pc = HostPc.submit) →
      (st.slot = 0 → st.out0 = 0 ∧ st.fence0 = false)
      ∧ (st.slot = 1 → st.out1 = 0 ∧ st.fence1 = false))
  ∧ (st.pc = HostPc.resetFences →
      (st.slot = 0 → st.out0 = 0 ∧ st.fence0 = true)
      ∧ (st.slot = 1 → st.out1 = 0 ∧ st.fence1 = true))
  ∧ (st.m = 0 ∧ st.pc = HostPc.waitFences → st.fence0 = true ∧ st.out0 = 0)
  ∧ (st.m = 0 ∨ (st.m = 1 ∧ st.pc = HostPc.waitFences) →
      st.fence1 = true ∧ st.out1 = 0)

/-- Property package for the frame synchronization protocol: the state
part bounds the number of unretired submissions by
MAX_FRAMES_IN_FLIGHT and says a slot is only recorded into or
submitted from after its previous submission retired, with its fence
already reset at the submit point; the trace part orders, within one
iteration, fence wait before fence reset before recording before
submit before present. -/
def FrameSyncProtocolOK (st : SchedState) (currentFrame : Nat)
    (extent : VkExtent2D) (imageIndex : Nat) : Prop :=
  (st.outstanding 0 + st.outstanding 1 ≤ MAX_FRAMES_IN_FLIGHT)
  ∧ ((st.pc = HostPc.resetCommandBuffer ∨ st.pc = HostPc.record
        ∨ st.pc = HostPc.submit) → st.outstanding st.slot = 0)
  ∧ (st.pc = HostPc.submit → st.fence st.slot = false)
  ∧ ((st.pc = HostPc.acquireImage ∨ st.pc = HostPc.resetCommandBuffer
        ∨ st.pc = HostPc.record ∨ st.pc = HostPc.submit) →
      st.fence st.slot = false)
  ∧ (let tr := (Render currentFrame extent imageIndex
        VkResult.success VkResult.success VkResult.success).1
     Before tr (RenderOp.vkWaitForFences (inFlightFences currentFrame))
       (RenderOp.vkResetFences (inFlightFences currentFrame))
     ∧ Before tr (RenderOp.vkResetFences (inFlightFences currentFrame))
       (RenderOp.vkBeginCommandBuffer (commandBuffers currentFrame))
     ∧ Before tr (RenderOp.vkBeginCommandBuffer (commandBuffers currentFrame))
       (RenderOp.vkQueueSubmit 1 [mkSubmitInfo currentFrame] (inFlightFences currentFrame))
     ∧ Before tr (RenderOp.vkResetFences (inFlightFences currentFrame))
       (RenderOp.vkQueueSubmit 1 [mkSubmitInfo currentFrame] (inFlightFences currentFrame))
     ∧ Before tr (RenderOp.vkQueueSubmit 1 [mkSubmitInfo currentFrame] (inFlightFences currentFrame))
       (RenderOp.vkQueuePresentKHR (mkPresentInfo currentFrame imageIndex)))

/-- Whole-application operations for the shutdown-ordering claim. -/
inductive AppOp where
  | glfwPollEvents
  | renderFrame (slot : Nat)
  | vkDeviceWaitIdle
  | vkDestroySemaphore (s : VkSemaphore)
  | vkDestroyFence (fence : Nat)
  | vkDestroyCommandPool
  | glfwDestroyWindow
  | glfwTerminate
deriving DecidableEq

/-- VulkanApp::Run (main.cpp lines 70-77) with the window-close flag
becoming true after the given number of iterations: each iteration
polls events and renders with the current frame index, and after the
loop the device is drained with vkDeviceWaitIdle (line 76). -/
def Run (iterations : Nat) : List AppOp :=
  (List.range iterations).flatMap
    (fun m => [AppOp.glfwPollEvents, AppOp.renderFrame (currentFrameAfter m)])
  ++ [AppOp.vkDeviceWaitIdle]

/-- Destroy calls of the destructor ~VulkanApp (main.cpp lines 55-68):
per slot the two semaphores and the fence, then the command pool, the
window, and glfwTerminate. -/
def destructorOps : List AppOp :=
  (List.range MAX_FRAMES_IN_FLIGHT).flatMap
    (fun i =>
      [AppOp.vkDestroySemaphore (imageAvailableSemaphores i),
       AppOp.vkDestroySemaphore (renderFinishedSemaphores i),
       AppOp.vkDestroyFence (inFlightFences i)])
  ++ [AppOp.vkDestroyCommandPool, AppOp.glfwDestroyWindow, AppOp.glfwTerminate]

set_option linter.unusedVariables false in
/-- Destructor ~VulkanApp as a function of the device fence states, to
make explicit that its body never inspects them: whatever is still
outstanding, it performs the same destroy sequence and reports no
error (the body contains no check, no wait, and no throw). -/
def vulkanAppDestructor (fencesSignaled : Nat → Bool) :
    List AppOp × Option RuntimeError :=
  (destructorOps, none)

/-- Shutdown path of main (main.cpp lines 280-290): app.Run() returns
after the loop and its trailing vkDeviceWaitIdle, then the destructor
runs when app goes out of scope. -/
def mainShutdown (iterations : Nat) : List AppOp :=
  Run iterations ++ (vulkanAppDestructor (fun _ => true)).1

/-- Recognizer for frame-slot resource destruction. -/
def isDestroyOp : AppOp → Bool
  | .vkDestroySemaphore _ => true
  | .vkDestroyFence _ => true
  | .vkDestroyCommandPool => true
  | _ => false

/-- Recognizer for the full device drain. -/
def isDeviceWaitIdleOp : AppOp → Bool
  | .vkDeviceWaitIdle => true
  | _ => false

/-- QueueFamilyIndices of vkutils.hpp. -/
structure QueueFamilyIndices where
  graphics : Option Nat
  present : Option Nat
deriving DecidableEq

/-- Member IsComplete of QueueFamilyIndices (vkutils.hpp lines 18-20). -/
def QueueFamilyIndices.IsComplete (q : QueueFamilyIndices) : Bool :=
  q.graphics.isSome && q.present.isSome

/-- Loop of VkUtils::FindQueueFamilies (vkutils.cpp lines 149-164):
the i-th input pair lists whether queue family i has the graphics bit
and whether it supports presentation; record the last matching index
of each kind, stopping early once both are found. -/
def findQueueFamiliesLoop :
    List (Bool × Bool) → Nat → QueueFamilyIndices → QueueFamilyIndices
  | [], _, acc => acc
  | (graphicsBit, presentSupport) :: rest, i, acc =>
    let acc1 := if graphicsBit then { acc with graphics := some i } else acc
    let acc2 := if presentSupport then { acc1 with present := some i } else acc1
    if acc2.IsComplete then acc2 else findQueueFamiliesLoop rest (i + 1) acc2

/-- VkUtils::FindQueueFamilies (vkutils.cpp lines 126-169) with its
function-local static optional made an explicit argument and result.
The family enumeration device calls are abstracted as the
queueFamilyProps argument. The result triple is the returned indices,
the static cache after the call, and how many times the device was
enumerated during the call. The source consults the cache without
comparing the device or surface argument with the ones the cached
value was computed from. -/
def FindQueueFamilies (queueFamilyProps : Nat → Nat → List (Bool × Bool))
    (device : Nat) (surface : Nat) (indices : Option QueueFamilyIndices) :
    QueueFamilyIndices × Option QueueFamilyIndices × Nat :=
  match indices with
  | some v => (v, some v, 0)
  | none =>
    let result := findQueueFamiliesLoop (queueFamilyProps device surface) 0 ⟨none, none⟩
    (result, some result, 1)

/-- SwapchainSupport of vkutils.hpp (the source spells the first field
capabilites); the surface capabilities, formats and present modes are
opaque values here. -/
structure SwapchainSupport where
  capabilites : Nat
  formats : List Nat
  presentModes : List Nat
deriving DecidableEq

/-- VkUtils::FindSwapchainSupport (vkutils.cpp lines 171-219) with its
function-local static optional made an explicit argument and result,
in the same shape as FindQueueFamilies: the surface query device calls
are abstracted as querySupport, and the third result component counts
device queries made by the call. -/
def FindSwapchainSupport (querySupport : Nat → Nat → SwapchainSupport)
    (device : Nat) (surface : Nat) (cache : Option SwapchainSupport) :
    SwapchainSupport × Option SwapchainSupport × Nat :=
  match cache with
  | some v => (v, some v, 0)
  | none =>
    let support := querySupport device surface
    (support, some support, 1)

/-- ASSERT macro (debug.hpp lines 14-17): when the condition fails it
prints a diagnostic and throws runtime_error with the fixed message. -/
def ASSERT (cond : Bool) : Option RuntimeError :=
  if cond then none else some ⟨"Check error log"⟩

set_option linter.unusedVariables false in
/-- Shader source read in the ShaderModule constructor
(vkshader.cpp lines 8-9): the FileUtils::ReadBinary call is commented
out and the source vector is hard-coded empty, for every path. -/
def shaderSourceRead (path : String) : List Char := []

/-- Constructor ShaderModule::ShaderModule(const char*, VkDevice)
(vkshader.cpp lines 7-31): reads the (empty) source, asserts it is
non-empty, and only then creates the module, whose handle is opaque
here. -/
def ShaderModuleCtor (path : String) (device : Nat) : Except RuntimeError Nat :=
  let source := shaderSourceRead path
  match ASSERT (source.length > 0) with
  | some e => Except.error e
  | none => Except.ok device

/-- Constructor Pipeline::Pipeline(VkDevice) (vkpipeline.cpp lines
8-12): builds the vertex shader module from
RESOURCES"shaders/basic.vert.spv" and then the fragment shader module;
the RESOURCES prefix is a build-system macro and is passed in. -/
def PipelineCtor (RESOURCES : String) (device : Nat) : Except RuntimeError Unit := do
  let _vertexShaderModule ← ShaderModuleCtor (RESOURCES ++ "shaders/basic.vert.spv") device
  let _fragmentShaderModule ← ShaderModuleCtor (RESOURCES ++ "shaders/basic.frag.spv") device
  Except.ok ()

/-! Theorems. -/

/-- The invariant holds in the initial state. -/
theorem schedInv_initState : SchedInv initState := by
  simp [SchedInv, initState]

/-- The invariant is preserved by every host and device step. -/
theorem schedInv_step {s t : SchedState} (h : SchedInv s) (hstep : SchedStep s t) :
    SchedInv t := by
  obtain ⟨h1, h2, h3, h4, h5, h6, h7, h8⟩ := h
  cases hstep with
  | waitFences hpc hf =>
      refine ⟨h1, h2, h3, h4, by simp, ?_, by simp, ?_⟩
      · intro _
        simp only [SchedState.fence, SchedState.slot, MAX_FRAMES_IN_FLIGHT] at hf
        constructor
        · intro hs0
          simp only [SchedState.slot, MAX_FRAMES_IN_FLIGHT] at hs0
          rw [if_pos hs0] at hf
          exact ⟨h3 hf, hf⟩
        · intro hs1
          simp only [SchedState.slot, MAX_FRAMES_IN_FLIGHT] at hs1
          simp [hs1] at hf
          exact ⟨h4 hf, hf⟩
      · intro hm
        simp at hm
        exact h8 (Or.inl hm)
  | resetFences hpc hs =>
      obtain ⟨h6a, h6b⟩ := (h6 hpc).1 hs
      simp only [SchedState.slot, MAX_FRAMES_IN_FLIGHT] at hs
      refine ⟨by dsimp only; omega, h2, by simp, h4, ?_, by simp, by simp, ?_⟩
      · intro _
        constructor
        · intro _
          exact ⟨h6a, rfl⟩
        · intro hs1
          simp only [SchedState.slot, MAX_FRAMES_IN_FLIGHT] at hs1
          omega
      · intro hm
        simp at hm
        exact h8 (Or.inl hm)
  | resetFences1 hpc hs =>
      obtain ⟨h6a, h6b⟩ := (h6 hpc).2 hs
      simp only [SchedState.slot, MAX_FRAMES_IN_FLIGHT] at hs
      refine ⟨h1, by dsimp only; omega, h3, by simp, ?_, by simp, by simp, ?_⟩
      · intro _
        constructor
        · intro hs0
          simp only [SchedState.slot, MAX_FRAMES_IN_FLIGHT] at hs0
          omega
        · intro _
          exact ⟨h6a, rfl⟩
      · intro hm
        simp at hm
        omega
  | acquireImage hpc =>
      refine ⟨h1, h2, h3, h4, ?_, by simp, by simp, ?_⟩
      · intro _
        exact h5 (Or.inl hpc)
      · intro hm
        simp at hm
        exact h8 (Or.inl hm)
  | resetCommandBuffer hpc =>
      refine ⟨h1, h2, h3, h4, ?_, by simp, by simp, ?_⟩
      · intro _
        exact h5 (Or.inr (Or.inl hpc))
      · intro hm
        simp at hm
        exact h8 (Or.inl hm)
  | record hpc =>
      refine ⟨h1, h2, h3, h4, ?_, by simp, by simp, ?_⟩
      · intro _
        exact h5 (Or.inr (Or.inr (Or.inl hpc)))
      · intro hm
        simp at hm
        exact h8 (Or.inl hm)
  | submit0 hpc hs =>
      obtain ⟨h5a, h5b⟩ := (h5 (Or.inr (Or.inr (Or.inr hpc)))).1 hs
      refine ⟨by dsimp only; omega, h2, ?_, h4, by simp, by simp, by simp, ?_⟩
      · intro hf
        rw [h5b] at hf
        cases hf
      · intro hm
        simp at hm
        exact h8 (Or.inl hm)
  | submit1 hpc hs =>
      obtain ⟨h5a, h5b⟩ := (h5 (Or.inr (Or.inr (Or.inr hpc)))).2 hs
      simp only [SchedState.slot, MAX_FRAMES_IN_FLIGHT] at hs
      refine ⟨h1, by dsimp only; omega, h3, ?_, by simp, by simp, by simp, ?_⟩
      · intro hf
        rw [h5b] at hf
        cases hf
      · intro hm
        simp at hm
        omega
  | present hpc =>
      refine ⟨h1, h2, h3, h4, by simp, by simp, by simp, ?_⟩
      · intro hm
        simp at hm
        exact h8 (Or.inl (by omega))
  | retire0 hout =>
      refine ⟨by dsimp only; omega, h2, by dsimp only; intro _; omega, h4, ?_, ?_, ?_, ?_⟩
      · intro hmid
        have h5a := h5 hmid
        constructor
        · intro hs0
          have := h5a.1 hs0
          omega
        · intro hs1
          exact h5a.2 hs1
      · intro hpc
        have h6a := h6 hpc
        constructor
        · intro hs0
          have := (h6a.1 hs0).1
          exact ⟨by dsimp only; omega, rfl⟩
        · intro hs1
          exact h6a.2 hs1
      · intro hm
        have := h7 hm
        exact ⟨rfl, by dsimp only; omega⟩
      · intro hm
        exact h8 hm
  | retire1 hout =>
      refine ⟨h1, by dsimp only; omega, h3, by dsimp only; intro _; omega, ?_, ?_, ?_, ?_⟩
      · intro hmid
        have h5a := h5 hmid
        constructor
        · intro hs0
          exact h5a.1 hs0
        · intro hs1
          have := h5a.2 hs1
          omega
      · intro hpc
        have h6a := h6 hpc
        constructor
        · intro hs0
          exact h6a.1 hs0
        · intro hs1
          have := (h6a.2 hs1).1
          exact ⟨by dsimp only; omega, rfl⟩
      · intro hm
        exact h7 hm
      · intro hm
        have := h8 hm
        exact ⟨rfl, by dsimp only; omega⟩

/-- Every reachable state satisfies the invariant. -/
theorem schedInv_of_reachable {st : SchedState} (h : SchedReachable st) : SchedInv st := by
  induction h with
  | init => exact schedInv_initState
  | step _ hstep ih => exact schedInv_step ih hstep

/-- Helper: takeWhile walks through a prefix whose elements all
satisfy the predicate. -/
theorem takeWhile_append_of_all {α : Type} (p : α → Bool) (l1 l2 : List α)
    (h : ∀ a ∈ l1, p a = true) :
    (l1 ++ l2).takeWhile p = l1 ++ l2.takeWhile p := by
  induction l1 with
  | nil => simp
  | cons a t ih =>
      have ha : p a = true := h a (List.mem_cons_self a t)
      simp [List.takeWhile_cons, ha,
        ih (fun b hb => h b (List.mem_cons_of_mem a hb))]

/-- C2: the frame index starts at slot 0 and advances by
(index + 1) mod N once per completed iteration, so after any number m
of iterations the current slot index is m mod N; for N = 2 the first
four iterations use slots 0, 1, 0, 1. -/
theorem frame_index_advancer_mod :
    (∀ m : Nat, currentFrameAfter m = m % MAX_FRAMES_IN_FLIGHT)
    ∧ currentFrameAfter 0 = 0 ∧ currentFrameAfter 1 = 1
    ∧ currentFrameAfter 2 = 0 ∧ currentFrameAfter 3 = 1 := by
  have key : ∀ m : Nat, currentFrameAfter m = m % MAX_FRAMES_IN_FLIGHT := by
    intro m
    induction m with
    | zero => rfl
    | succ n ih =>
        simp only [currentFrameAfter, advanceFrame, ih, MAX_FRAMES_IN_FLIGHT]
        omega
  exact ⟨key, by decide, by decide, by decide, by decide⟩

/-- C1: in every reachable state of the frame loop, at most
MAX_FRAMES_IN_FLIGHT submissions are unretired; a slot is only
recorded into or submitted from once its previous submission has
retired (the fence wait observed the fence signaled); the fence is
already reset to unsignaled at the submit point; and within one
iteration the trace orders fence wait, fence reset, recording, submit
and present strictly sequentially. -/
theorem frame_sync_protocol (st : SchedState) (h : SchedReachable st)
    (currentFrame : Nat) (extent : VkExtent2D) (imageIndex : Nat) :
    FrameSyncProtocolOK st currentFrame extent imageIndex := by
  obtain ⟨h1, h2, h3, h4, h5, h6, h7, h8⟩ := schedInv_of_reachable h
  have hslot : st.slot = 0 ∨ st.slot = 1 := by
    simp only [SchedState.slot, MAX_FRAMES_IN_FLIGHT]
    omega
  refine ⟨?_, ?_, ?_, ?_, ?_, ?_, ?_, ?_, ?_⟩
  · show st.outstanding 0 + st.outstanding 1 ≤ MAX_FRAMES_IN_FLIGHT
    have e0 : st.outstanding 0 = st.out0 := rfl
    have e1 : st.outstanding 1 = st.out1 := rfl
    rw [e0, e1]
    simp only [MAX_FRAMES_IN_FLIGHT]
    omega
  · intro hpc
    have h5a := h5 (Or.inr hpc)
    simp only [SchedState.outstanding]
    rcases hslot with hs | hs
    · rw [if_pos hs]
      exact (h5a.1 hs).1
    · rw [hs]
      simp only [if_neg (by omega : ¬ (1 = 0))]
      exact (h5a.2 hs).1
  · intro hpc
    have h5a := h5 (Or.inr (Or.inr (Or.inr hpc)))
    simp only [SchedState.fence]
    rcases hslot with hs | hs
    · rw [if_pos hs]
      exact (h5a.1 hs).2
    · rw [hs]
      simp only [if_neg (by omega : ¬ (1 = 0))]
      exact (h5a.2 hs).2
  · intro hpc
    have h5a := h5 hpc
    simp only [SchedState.fence]
    rcases hslot with hs | hs
    · rw [if_pos hs]
      exact (h5a.1 hs).2
    · rw [hs]
      simp only [if_neg (by omega : ¬ (1 = 0))]
      exact (h5a.2 hs).2
  · exact ⟨0, 1, by omega, rfl, rfl⟩
  · exact ⟨1, 4, by omega, rfl, rfl⟩
  · exact ⟨4, 12, by omega, rfl, rfl⟩
  · exact ⟨1, 12, by omega, rfl, rfl⟩
  · exact ⟨12, 13, by omega, rfl, rfl⟩

/-- Witness for frame_sync_protocol at the initial state with concrete
frame index, extent and image index. -/
theorem frame_sync_protocol_witness :
    FrameSyncProtocolOK initState 0 ⟨500, 500⟩ 0 :=
  frame_sync_protocol initState SchedReachable.init 0 ⟨500, 500⟩ 0

/-- C3: every Render iteration performs exactly one queue submission,
with submit count 1, waiting on the current slot's image-available
semaphore gated at the color-attachment-output stage, submitting the
slot's command buffer, signaling the slot's render-finished semaphore,
and fenced on the slot's in-flight fence (the completion marker). -/
theorem submit_stage_wiring (currentFrame : Nat) (extent : VkExtent2D)
    (imageIndex : Nat) (acquireResult submitResult presentResult : VkResult) :
    (Render currentFrame extent imageIndex acquireResult submitResult presentResult).1.filter
        isQueueSubmitOp
      = [RenderOp.vkQueueSubmit 1 [mkSubmitInfo currentFrame] (inFlightFences currentFrame)]
    ∧ (mkSubmitInfo currentFrame).waitSemaphoreCount = 1
    ∧ (mkSubmitInfo currentFrame).pWaitSemaphores = [VkSemaphore.imageAvailable currentFrame]
    ∧ (mkSubmitInfo currentFrame).pWaitDstStageMask = [VkPipelineStageFlag.colorAttachmentOutput]
    ∧ (mkSubmitInfo currentFrame).commandBufferCount = 1
    ∧ (mkSubmitInfo currentFrame).pCommandBuffers = [commandBuffers currentFrame]
    ∧ (mkSubmitInfo currentFrame).pSignalSemaphores = [VkSemaphore.renderFinished currentFrame] := by
  cases submitResult with
  | success => exact ⟨rfl, rfl, rfl, rfl, rfl, rfl, rfl⟩
  | suboptimalKHR => exact ⟨rfl, rfl, rfl, rfl, rfl, rfl, rfl⟩
  | errorOutOfDateKHR => exact ⟨rfl, rfl, rfl, rfl, rfl, rfl, rfl⟩
  | errorDeviceLost => exact ⟨rfl, rfl, rfl, rfl, rfl, rfl, rfl⟩

/-- C4: RecordCommand rewrites the command buffer in exactly the order
begin recording, begin render pass on the framebuffer of the image
index with the fixed clear color, bind pipeline, set viewport and
scissor from the current extent, draw, end render pass, end recording;
it contains no device wait; and in Render the command buffer reset
comes before the recording begins. -/
theorem record_stage_order (extent : VkExtent2D) (command imageIndex currentFrame : Nat)
    (acquireResult submitResult presentResult : VkResult) :
    RecordCommand extent command imageIndex
      = [ RenderOp.vkBeginCommandBuffer command,
          RenderOp.vkCmdBeginRenderPass command imageIndex clearColor ⟨0, 0, extent⟩,
          RenderOp.vkCmdBindPipeline command,
          RenderOp.vkCmdSetViewport command (GetViewport extent),
          RenderOp.vkCmdSetScissor command (GetScissor extent),
          RenderOp.vkCmdDraw command 3 1 0 0,
          RenderOp.vkCmdEndRenderPass command,
          RenderOp.vkEndCommandBuffer command ]
    ∧ clearColor = ⟨0.2, 0.2, 0.2, 1.0⟩
    ∧ (RecordCommand extent command imageIndex).all (fun op => !(isDeviceWaitOp op)) = true
    ∧ Before (Render currentFrame extent imageIndex acquireResult submitResult presentResult).1
        (RenderOp.vkResetCommandBuffer (commandBuffers currentFrame))
        (RenderOp.vkBeginCommandBuffer (commandBuffers currentFrame)) := by
  refine ⟨rfl, rfl, rfl, ?_⟩
  cases submitResult with
  | success => exact ⟨3, 4, by omega, rfl, rfl⟩
  | suboptimalKHR => exact ⟨3, 4, by omega, rfl, rfl⟩
  | errorOutOfDateKHR => exact ⟨3, 4, by omega, rfl, rfl⟩
  | errorDeviceLost => exact ⟨3, 4, by omega, rfl, rfl⟩

/-- C5: initialization makes exactly MAX_FRAMES_IN_FLIGHT slots (both
semaphore vectors, the fence vector and the command buffer vector have
length MAX_FRAMES_IN_FLIGHT), every fence starts signaled, and in any
reachable state belonging to one of the first MAX_FRAMES_IN_FLIGHT
iterations the fence the host is about to wait on is already
signaled, so the wait does not block. -/
theorem init_signaled_first_waits (st : SchedState) (h : SchedReachable st)
    (hpc : st.pc = HostPc.waitFences) (hm : st.m < MAX_FRAMES_IN_FLIGHT) :
    (CreateSyncObjects.1.length = MAX_FRAMES_IN_FLIGHT
      ∧ CreateSyncObjects.2.1.length = MAX_FRAMES_IN_FLIGHT
      ∧ CreateSyncObjects.2.2.length = MAX_FRAMES_IN_FLIGHT
      ∧ AllocateCommandBuffers.length = MAX_FRAMES_IN_FLIGHT
      ∧ CreateSyncObjects.2.2.all (fun b => b) = true)
    ∧ st.fence st.slot = true := by
  refine ⟨by decide, ?_⟩
  obtain ⟨h1, h2, h3, h4, h5, h6, h7, h8⟩ := schedInv_of_reachable h
  simp only [MAX_FRAMES_IN_FLIGHT] at hm
  simp only [SchedState.fence, SchedState.slot, MAX_FRAMES_IN_FLIGHT]
  have hcase : st.m = 0 ∨ st.m = 1 := by omega
  rcases hcase with h0 | h1'
  · simp [h0]
    exact (h7 ⟨h0, hpc⟩).1
  · simp [h1']
    exact (h8 (Or.inr ⟨h1', hpc⟩)).1

/-- Witness for init_signaled_first_waits at the initial state. -/
theorem init_signaled_first_waits_witness :
    (CreateSyncObjects.1.length = MAX_FRAMES_IN_FLIGHT
      ∧ CreateSyncObjects.2.1.length = MAX_FRAMES_IN_FLIGHT
      ∧ CreateSyncObjects.2.2.length = MAX_FRAMES_IN_FLIGHT
      ∧ AllocateCommandBuffers.length = MAX_FRAMES_IN_FLIGHT
      ∧ CreateSyncObjects.2.2.all (fun b => b) = true)
    ∧ initState.fence initState.slot = true :=
  init_signaled_first_waits initState SchedReachable.init rfl (by decide)

/-- C6 counterexample: at a concrete input, an out-of-date status from
present is not a distinct recoverable condition: VK_ASSERT turns it
into the very same fatal runtime_error a device-lost submit failure
produces, so the loop does not continue and no reconstruction is
triggered. -/
theorem out_of_date_present_fatal_counterexample :
    (Render 0 ⟨500, 500⟩ 0 VkResult.success VkResult.success VkResult.errorOutOfDateKHR).2
      = some ⟨"Check error log"⟩
    ∧ (Render 0 ⟨500, 500⟩ 0 VkResult.success VkResult.errorDeviceLost VkResult.success).2
      = some ⟨"Check error log"⟩ :=
  ⟨rfl, rfl⟩

/-- C6 amended: an out-of-date status from acquire is silently
discarded - the iteration is identical to one with a successful
acquire, so no slot is destroyed and the loop continues with the same
pool - while an out-of-date (or suboptimal) status from present
throws the same fatal runtime_error as any other failure; no swapchain
reconstruction exists. -/
theorem out_of_date_handling_amended (currentFrame : Nat) (extent : VkExtent2D)
    (imageIndex : Nat) :
    Render currentFrame extent imageIndex VkResult.errorOutOfDateKHR VkResult.success VkResult.success
      = Render currentFrame extent imageIndex VkResult.success VkResult.success VkResult.success
    ∧ (Render currentFrame extent imageIndex VkResult.errorOutOfDateKHR VkResult.success VkResult.success).2
      = none
    ∧ (Render currentFrame extent imageIndex VkResult.success VkResult.success VkResult.errorOutOfDateKHR).2
      = some ⟨"Check error log"⟩
    ∧ (Render currentFrame extent imageIndex VkResult.success VkResult.success VkResult.suboptimalKHR).2
      = some ⟨"Check error log"⟩
    ∧ (Render currentFrame extent imageIndex VkResult.success VkResult.success VkResult.errorOutOfDateKHR).2
      = (Render currentFrame extent imageIndex VkResult.success VkResult.errorDeviceLost VkResult.success).2 :=
  ⟨rfl, rfl, rfl, rfl, rfl⟩

/-- C7 counterexample: at a concrete input the error propagated by a
failing submit equals the error propagated by a present that reports
out of date, so it is not distinguishable from it, and an acquire
out-of-date status produces no error at all: the code has no
recoverable error class to distinguish the submit failure from. -/
theorem submit_error_not_distinct_counterexample :
    (Render 0 ⟨500, 500⟩ 0 VkResult.success VkResult.errorDeviceLost VkResult.success).2
      = (Render 0 ⟨500, 500⟩ 0 VkResult.success VkResult.success VkResult.errorOutOfDateKHR).2
    ∧ (Render 0 ⟨500, 500⟩ 0 VkResult.errorOutOfDateKHR VkResult.success VkResult.success).2 = none :=
  ⟨rfl, rfl⟩

/-- C7 amended: when the queue submit of an iteration returns a
non-success status, the present stage is not invoked in that iteration
and the iteration propagates the fatal runtime_error; but the error is
the same runtime_error every VK_ASSERT failure produces, including a
present out-of-date, so no recoverable error class exists to
distinguish it from. -/
theorem submit_failure_skips_present_amended (currentFrame : Nat) (extent : VkExtent2D)
    (imageIndex : Nat) (submitResult presentResult : VkResult)
    (h : submitResult ≠ VkResult.success) :
    (Render currentFrame extent imageIndex VkResult.success submitResult presentResult).1.all
        (fun op => !(isQueuePresentOp op)) = true
    ∧ (Render currentFrame extent imageIndex VkResult.success submitResult presentResult).2
      = some ⟨"Check error log"⟩ := by
  cases submitResult with
  | success => exact absurd rfl h
  | suboptimalKHR => exact ⟨rfl, rfl⟩
  | errorOutOfDateKHR => exact ⟨rfl, rfl⟩
  | errorDeviceLost => exact ⟨rfl, rfl⟩

/-- Witness for submit_failure_skips_present_amended at a concrete
failing submit. -/
theorem submit_failure_skips_present_witness :
    (Render 0 ⟨500, 500⟩ 0 VkResult.success VkResult.errorDeviceLost VkResult.success).1.all
        (fun op => !(isQueuePresentOp op)) = true
    ∧ (Render 0 ⟨500, 500⟩ 0 VkResult.success VkResult.errorDeviceLost VkResult.success).2
      = some ⟨"Check error log"⟩ :=
  submit_failure_skips_present_amended 0 ⟨500, 500⟩ 0 VkResult.errorDeviceLost
    VkResult.success (by decide)

/-- C8 counterexample: the destructor performs no drain and no check:
even when every fence is unsignaled (device work still outstanding)
it returns the same unconditional destroy sequence, reports no error,
contains no vkDeviceWaitIdle, and its first operation already destroys
a slot resource. A destroy without an intervening drain therefore
silently proceeds instead of being rejected or detected. -/
theorem destructor_no_drain_check_counterexample :
    vulkanAppDestructor (fun _ => false) = (destructorOps, none)
    ∧ destructorOps.all (fun op => !(isDeviceWaitIdleOp op)) = true
    ∧ destructorOps.head? = some (AppOp.vkDestroySemaphore (VkSemaphore.imageAvailable 0)) := by
  exact ⟨rfl, by decide, by decide⟩

/-- C8 amended: in the normal shutdown path, Run executes
vkDeviceWaitIdle after the render loop and before the destructor runs,
so no destroy operation precedes the drain in the shutdown trace; but
a destroy without a drain is not detected: the destructor ignores the
device state and reports no error. -/
theorem shutdown_drain_order_amended (iterations : Nat) (fencesSignaled : Nat → Bool) :
    mainShutdown iterations = Run iterations ++ destructorOps
    ∧ ((mainShutdown iterations).takeWhile (fun op => !(isDeviceWaitIdleOp op))).all
        (fun op => !(isDestroyOp op)) = true
    ∧ (vulkanAppDestructor fencesSignaled).2 = none := by
  refine ⟨rfl, ?_, rfl⟩
  have hloop : ∀ op ∈ (List.range iterations).flatMap
      (fun m => [AppOp.glfwPollEvents, AppOp.renderFrame (currentFrameAfter m)]),
      (!(isDeviceWaitIdleOp op)) = true := by
    intro op hop
    simp only [List.mem_flatMap, List.mem_range] at hop
    obtain ⟨m, _, hmem⟩ := hop
    simp only [List.mem_cons, List.mem_singleton] at hmem
    rcases hmem with h | h | h
    · rw [h]; rfl
    · rw [h]; rfl
    · cases h
  have hshut : mainShutdown iterations
      = (List.range iterations).flatMap
          (fun m => [AppOp.glfwPollEvents, AppOp.renderFrame (currentFrameAfter m)])
        ++ (AppOp.vkDeviceWaitIdle :: destructorOps) := by
    simp [mainShutdown, Run, vulkanAppDestructor, List.append_assoc]
  rw [hshut, takeWhile_append_of_all _ _ _ hloop]
  have hstop : (AppOp.vkDeviceWaitIdle :: destructorOps).takeWhile
      (fun op => !(isDeviceWaitIdleOp op)) = [] := rfl
  rw [hstop, List.append_nil]
  simp only [List.all_eq_true]
  intro op hop
  simp only [List.mem_flatMap, List.mem_range] at hop
  obtain ⟨m, _, hmem⟩ := hop
  simp only [List.mem_cons, List.mem_singleton] at hmem
  rcases hmem with h | h | h
  · rw [h]; rfl
  · rw [h]; rfl
  · cases h

/-- C9: both query helpers memoize in state keyed globally, not per
device and surface pair: after a first call with arguments d1, s1
filled the cache, a second call with any different device and surface
d2, s2 returns the value computed for d1, s1 and performs zero device
queries. -/
theorem query_memoization_global
    (queueFamilyProps : Nat → Nat → List (Bool × Bool))
    (querySupport : Nat → Nat → SwapchainSupport)
    (d1 s1 d2 s2 : Nat) :
    (FindQueueFamilies queueFamilyProps d2 s2
        (FindQueueFamilies queueFamilyProps d1 s1 none).2.1).1
      = findQueueFamiliesLoop (queueFamilyProps d1 s1) 0 ⟨none, none⟩
    ∧ (FindQueueFamilies queueFamilyProps d2 s2
        (FindQueueFamilies queueFamilyProps d1 s1 none).2.1).1
      = (FindQueueFamilies queueFamilyProps d1 s1 none).1
    ∧ (FindQueueFamilies queueFamilyProps d2 s2
        (FindQueueFamilies queueFamilyProps d1 s1 none).2.1).2.2 = 0
    ∧ (FindSwapchainSupport querySupport d2 s2
        (FindSwapchainSupport querySupport d1 s1 none).2.1).1
      = querySupport d1 s1
    ∧ (FindSwapchainSupport querySupport d2 s2
        (FindSwapchainSupport querySupport d1 s1 none).2.1).1
      = (FindSwapchainSupport querySupport d1 s1 none).1
    ∧ (FindSwapchainSupport querySupport d2 s2
        (FindSwapchainSupport querySupport d1 s1 none).2.1).2.2 = 0 :=
  ⟨rfl, rfl, rfl, rfl, rfl, rfl⟩

/-- C10: for every path and device the ShaderModule constructor
throws, because the shader source is hard-coded empty (the file read
is commented out) and the non-empty assertion fails; consequently the
Pipeline constructor, which builds both shader modules first, never
completes for any RESOURCES prefix and device. -/
theorem shader_module_always_throws :
    (∀ (path : String) (device : Nat),
        ShaderModuleCtor path device = Except.error ⟨"Check error log"⟩)
    ∧ (∀ (RESOURCES : String) (device : Nat),
        PipelineCtor RESOURCES device = Except.error ⟨"Check error log"⟩) :=
  ⟨fun _ _ => rfl, fun _ _ => rfl⟩

end CppVulkan
